import Mathlib

/-!
Verification development for the `roshambo` repository.

The repository consists of a single C++ header, `src/paper/paper.h`,
whose whole content is an include guard, one `#include <list>`, a forward
declaration of `RDKit::ROMol`, and one function declaration:

  extern "C" float** paper(int gpuID, std::list<RDKit::ROMol*>& molecules);

We embed the header shallowly: the raw text as a list of lines, the
preprocessor-level structure as a list of items, and the declaration's
C++ type as an AST.  A small preprocessor model executes the include
guard; an abstract-semantics model captures that the repository supplies
no definition of `paper`, so its behavior is unconstrained.
-/

namespace Roshambo

/-- C++ types as they appear in `src/paper/paper.h` line 10:
`int`, `float`, pointers, lvalue references (with their constness),
`std::list<T>`, and a class named inside a namespace
(such as `RDKit::ROMol`, which the header only forward-declares). -/
inductive CppType where
  | intType : CppType
  | floatType : CppType
  | ptr : CppType → CppType
  | lvalRef : Bool → CppType → CppType
  | stdListOf : CppType → CppType
  | classRef : String → String → CppType
deriving DecidableEq, Repr

/-- A formal parameter of a declared function: its name and type. -/
structure CppParam where
  pname : String
  ptype : CppType
deriving DecidableEq, Repr

/-- A C++ function declaration: name, whether it is declared
`extern "C"`, the parameter list in order, the return type, and the
exception specification if one is written (the header writes none). -/
structure FunDecl where
  fname : String
  hasCLinkage : Bool
  params : List CppParam
  ret : CppType
  exceptionSpec : Option String
deriving DecidableEq, Repr

/-- The one declaration of `src/paper/paper.h`, line 10:
`extern "C" float** paper(int gpuID, std::list<RDKit::ROMol*>& molecules);`.
The second parameter is a non-const lvalue reference, hence
`CppType.lvalRef false`. No exception specification is written. -/
def paperFunDecl : FunDecl where
  fname := "paper"
  hasCLinkage := true
  params :=
    [ { pname := "gpuID", ptype := CppType.intType }
    , { pname := "molecules"
      , ptype := CppType.lvalRef false
          (CppType.stdListOf (CppType.ptr (CppType.classRef "RDKit" "ROMol"))) } ]
  ret := CppType.ptr (CppType.ptr CppType.floatType)
  exceptionSpec := none

/-- A declaration-level item a header can contain: an `#include`, a
class forward declaration (`class X;` inside a namespace), a complete
class definition (with its member list), or a function declaration.
`src/paper/paper.h` contains one of each of the first, second and
fourth kinds and no complete class definition. -/
inductive HeaderDecl where
  | includeDirective : String → HeaderDecl
  | classForwardDecl : String → String → HeaderDecl
  | classDefinition : String → String → List String → HeaderDecl
  | funDeclItem : FunDecl → HeaderDecl
deriving DecidableEq, Repr

/-- A preprocessor-level item of the header: the three guard directives
and the declaration items between them. -/
inductive PPItem where
  | ifndefDirective : String → PPItem
  | defineDirective : String → PPItem
  | endifDirective : PPItem
  | item : HeaderDecl → PPItem
deriving DecidableEq, Repr

/-- `src/paper/paper.h`, transliterated line by line at the
preprocessor level (blank lines carry no item):
line 1 `#ifndef PAPER_H`, line 2 `#define PAPER_H`,
line 4 `#include <list>`, lines 6-8 the forward declaration of
`RDKit::ROMol`, line 10 the declaration of `paper`,
line 12 `#endif // PAPER_H`. -/
def paperHeaderPP : List PPItem :=
  [ PPItem.ifndefDirective "PAPER_H"
  , PPItem.defineDirective "PAPER_H"
  , PPItem.item (HeaderDecl.includeDirective "list")
  , PPItem.item (HeaderDecl.classForwardDecl "RDKit" "ROMol")
  , PPItem.item (HeaderDecl.funDeclItem paperFunDecl)
  , PPItem.endifDirective ]

/-- The raw text of `src/paper/paper.h` as a list of lines (the file is
180 bytes, 11 newline characters, and its last line is not
newline-terminated, so it has 12 text lines).  Braces are written with
their character codes. -/
def paperHeaderLines : List String :=
  [ "#ifndef PAPER_H"
  , "#define PAPER_H"
  , ""
  , "#include <list>"
  , ""
  , "namespace RDKit \x7b"
  , "    class ROMol;"
  , "\x7d"
  , ""
  , "extern \"C\" float** paper(int gpuID, std::list<RDKit::ROMol*>& molecules);"
  , ""
  , "#endif // PAPER_H" ]

/-- The full text of `src/paper/paper.h`: its lines joined by the 11
newline characters, with no trailing newline. -/
def paperHeaderText : String :=
  String.intercalate "\n" paperHeaderLines

/-- The include directives of a list of header items. -/
def itemIncludes : List PPItem → List String
  | [] => []
  | PPItem.item (HeaderDecl.includeDirective f) :: rest => f :: itemIncludes rest
  | _ :: rest => itemIncludes rest

/-- The class forward declarations (namespace, class name) of a list of
header items. -/
def itemForwardDecls : List PPItem → List (String × String)
  | [] => []
  | PPItem.item (HeaderDecl.classForwardDecl ns nm) :: rest =>
      (ns, nm) :: itemForwardDecls rest
  | _ :: rest => itemForwardDecls rest

/-- The complete class definitions (namespace, class name) of a list of
header items. -/
def itemClassDefs : List PPItem → List (String × String)
  | [] => []
  | PPItem.item (HeaderDecl.classDefinition ns nm _) :: rest =>
      (ns, nm) :: itemClassDefs rest
  | _ :: rest => itemClassDefs rest

/-- The function declarations of a list of header items. -/
def itemFunDecls : List PPItem → List FunDecl
  | [] => []
  | PPItem.item (HeaderDecl.funDeclItem d) :: rest => d :: itemFunDecls rest
  | _ :: rest => itemFunDecls rest

/-- A class named `ns::nm` is a complete type for a translation unit
that saw these items iff some item is a complete definition of it; a
bare forward declaration leaves it incomplete, so values of it cannot
be constructed and pointers to it cannot be dereferenced. -/
def isCompleteType (items : List PPItem) (ns nm : String) : Bool :=
  (itemClassDefs items).contains (ns, nm)

/-- One pass of the C preprocessor over a list of items, at the level of
detail the header uses.  `defs` is the set of defined macro names,
`skip` is true while the items of a failed `#ifndef` are being skipped.
`#ifndef M` starts skipping when `M` is already defined; `#define M`
adds `M` when not skipping; `#endif` ends the (un-nested: the header
nests no conditionals) conditional; a declaration item is emitted iff
not skipping.  Returns the defined macros afterwards and the emitted
declarations in order. -/
def ppRun (defs : List String) (skip : Bool) :
    List PPItem → List String × List HeaderDecl
  | [] => (defs, [])
  | PPItem.ifndefDirective m :: rest =>
      ppRun defs (skip || defs.contains m) rest
  | PPItem.defineDirective m :: rest =>
      if skip then ppRun defs skip rest else ppRun (m :: defs) skip rest
  | PPItem.endifDirective :: rest => ppRun defs false rest
  | PPItem.item d :: rest =>
      let r := ppRun defs skip rest
      (r.1, if skip then r.2 else d :: r.2)

/-- Including `src/paper/paper.h` once in a translation unit whose
defined macros are `defs`: the macros afterwards and the declarations
the inclusion contributes. -/
def includeHeader (defs : List String) : List String × List HeaderDecl :=
  ppRun defs false paperHeaderPP

/-- Including `src/paper/paper.h` `n` times in a row, concatenating the
declarations each inclusion contributes. -/
def includeHeaderN : Nat → List String → List String × List HeaderDecl
  | 0, defs => (defs, [])
  | n + 1, defs =>
      let r := includeHeader defs
      let r' := includeHeaderN n r.1
      (r'.1, r.2 ++ r'.2)

/-- A source file of the repository: its path, its preprocessor items,
its raw lines, and the names of the functions it *defines* (gives a
body to).  `paper.h` defines none: it only declares `paper`. -/
structure SourceFile where
  path : String
  ppItems : List PPItem
  textLines : List String
  definedFunNames : List String
deriving DecidableEq, Repr

/-- `src/paper/paper.h` as a source file.  It contains no function
definition, only the declaration of `paper`. -/
def paperDotH : SourceFile where
  path := "src/paper/paper.h"
  ppItems := paperHeaderPP
  textLines := paperHeaderLines
  definedFunNames := []

/-- The repository's source files: `src/paper/paper.h` is the only one. -/
def repoFiles : List SourceFile := [paperDotH]

/-- The names of all functions defined (given a body) anywhere in the
repository.  The repository contains only the header, which defines
none. -/
def repoDefinedFunNames : List String :=
  (repoFiles.map SourceFile.definedFunNames).flatten

/-- A call to `paper` as the declared interface describes it: an `int`
GPU identifier and the contents of the referenced `std::list`, its
elements abstracted to opaque handles (the header leaves `ROMol`
incomplete, so nothing about the pointees is visible). -/
structure PaperCall where
  gpuID : Int
  molecules : List Nat
deriving DecidableEq, Repr

/-- The observable outcome of a call to `paper` that returns: the state
of the caller's referenced list after the call (the non-const reference
permits the callee to change it) and the returned two-dimensional data,
each row a list of abstract value codes. -/
structure PaperResult where
  post : List Nat
  rows : List (List Nat)
deriving DecidableEq, Repr

/-- A candidate semantics for `paper`: any total behavior of the
declared shape. -/
def PaperSemantics : Type := PaperCall → PaperResult

/-- The semantics of the definitions of `paper` the repository supplies.
The repository supplies none — `grep` of the whole source tree finds no
body for `paper` — so this list is empty. -/
def repoPaperBodies : List PaperSemantics := []

/-- A candidate semantics agrees with the repository iff it coincides
with every definition of `paper` the repository supplies.  Since the
repository supplies none, this is vacuous: the source constrains the
behavior of `paper` in no way. -/
def AgreesWithRepo (s : PaperSemantics) : Prop :=
  ∀ b ∈ repoPaperBodies, s = b

/-- The behavior of `paper` at call `c` is determined by the repository
iff every semantics agreeing with the repository gives the same result
there. -/
def BehaviorDetermined (c : PaperCall) : Prop :=
  ∃ r : PaperResult, ∀ s : PaperSemantics, AgreesWithRepo s → s c = r

/-- Itanium-style mangling of a parameter type, at the level of detail
needed to see that C++ linkage would not export the plain name:
`int` is `i`, `float` is `f`, a pointer prefixes `P`, an lvalue
reference prefixes `R` (`K` for const), `std::list<T>` is the
substitution `St4listI`…`E` (default-allocator compression not
modelled), and a namespaced class is `N`‹len›ns‹len›nm`E`. -/
def mangleType : CppType → String
  | CppType.intType => "i"
  | CppType.floatType => "f"
  | CppType.ptr t => "P" ++ mangleType t
  | CppType.lvalRef true t => "RK" ++ mangleType t
  | CppType.lvalRef false t => "R" ++ mangleType t
  | CppType.stdListOf t => "St4listI" ++ mangleType t ++ "E"
  | CppType.classRef ns nm =>
      "N" ++ toString ns.length ++ ns ++ toString nm.length ++ nm ++ "E"

/-- Itanium-style mangled name of a function declaration:
`_Z`‹len›‹name› followed by the mangled parameter types. -/
def itaniumMangle (d : FunDecl) : String :=
  "_Z" ++ toString d.fname.length ++ d.fname
    ++ String.join (d.params.map fun p => mangleType p.ptype)

/-- The symbol a declaration is exported under: the plain (unmangled)
name when it is declared `extern "C"`, the mangled name otherwise. -/
def exportedSymbol (d : FunDecl) : String :=
  if d.hasCLinkage then d.fname else itaniumMangle d

/-- A mechanism a declaration could offer for signalling failure:
a written exception specification, an integral status-code return
type, or a sentinel value documented in an attached comment. -/
inductive ErrorMechanism where
  | exceptionSpecOf : String → ErrorMechanism
  | errorCodeReturn : ErrorMechanism
  | documentedSentinel : String → ErrorMechanism
deriving DecidableEq, Repr

/-- The comments attached to the declaration of `paper`: line 10 of
the header carries none (the header's only comment is the guard-name
comment on the `#endif` line, which documents no declaration). -/
def paperDeclComments : List String := []

/-- The failure-signalling mechanisms a declaration, together with its
attached comments, defines: its exception specification if written, an
integral status-code return type if the return type is `int`, and one
documented sentinel per attached comment. -/
def declaredErrorMechanisms (d : FunDecl) (comments : List String) :
    List ErrorMechanism :=
  (match d.exceptionSpec with
    | some s => [ErrorMechanism.exceptionSpecOf s]
    | none => [])
  ++ (if d.ret = CppType.intType then [ErrorMechanism.errorCodeReturn] else [])
  ++ comments.map ErrorMechanism.documentedSentinel

/-- Whether a parameter type lets the callee mutate the caller's
argument object: a non-const lvalue reference or a pointer to
non-const does; a by-value or const-reference parameter does not.
(Only the reference cases occur in the header; a pointer parameter
passes the pointer by value but lets the callee write the pointee.) -/
def permitsMutation : CppType → Bool
  | CppType.lvalRef c _ => !c
  | CppType.ptr _ => true
  | _ => false

/-- Every candidate semantics agrees with the repository, because the
repository supplies no definition of `paper` at all. -/
theorem agreesWithRepo_all (s : PaperSemantics) : AgreesWithRepo s :=
  fun b hb => absurd hb (List.not_mem_nil b)

/-- Once the guard macro `PAPER_H` is defined, including the header
contributes nothing: the `#ifndef` fails and every item up to the
`#endif` is skipped. -/
theorem includeHeader_guarded (defs : List String)
    (h : "PAPER_H" ∈ defs) :
    includeHeader defs = (defs, []) := by
  simp [includeHeader, paperHeaderPP, ppRun, h]

/-- Any number of inclusions from a state where `PAPER_H` is already
defined contributes nothing and leaves the macro state unchanged. -/
theorem includeHeaderN_guarded (n : Nat) (defs : List String)
    (h : "PAPER_H" ∈ defs) :
    includeHeaderN n defs = (defs, []) := by
  induction n with
  | zero => rfl
  | succ k ih => simp [includeHeaderN, includeHeader_guarded defs h, ih]

/-- C1: the repository's sole declared operation is the function
`paper`, taking exactly an `int` GPU device identifier and a
by-reference `std::list` of `RDKit::ROMol*`, and returning `float**`. -/
theorem paper_sole_decl_and_signature :
    itemFunDecls paperHeaderPP = [paperFunDecl]
    ∧ paperFunDecl.fname = "paper"
    ∧ paperFunDecl.params =
        [ ⟨"gpuID", CppType.intType⟩
        , ⟨"molecules", CppType.lvalRef false
            (CppType.stdListOf (CppType.ptr (CppType.classRef "RDKit" "ROMol")))⟩ ]
    ∧ paperFunDecl.ret = CppType.ptr (CppType.ptr CppType.floatType) := by
  decide

/-- C2: no file of the repository defines any function — in particular
none defines `paper` — and consequently the repository determines no
behavior of `paper` at any call: every candidate semantics is
consistent with the source, so no call's result is pinned down. -/
theorem paper_has_no_definition :
    repoDefinedFunNames = [] ∧ repoPaperBodies = []
    ∧ ∀ c : PaperCall, ¬ BehaviorDetermined c := by
  refine ⟨rfl, rfl, fun c h => ?_⟩
  obtain ⟨r, hr⟩ := h
  have h1 : (⟨[], []⟩ : PaperResult) = r :=
    hr (fun _ => ⟨[], []⟩) (agreesWithRepo_all _)
  have h2 : (⟨[], [[0]]⟩ : PaperResult) = r :=
    hr (fun _ => ⟨[], [[0]]⟩) (agreesWithRepo_all _)
  exact absurd (h1.trans h2.symm) (by decide)

/-- C3: the declared return type of `paper` is exactly `float**`, and
the dimensions of the returned data are unspecified: for every shape
there is a semantics consistent with the repository returning data of
exactly that shape on every call. -/
theorem paper_return_type_underdetermined :
    paperFunDecl.ret = CppType.ptr (CppType.ptr CppType.floatType)
    ∧ ∀ shape : List (List Nat), ∃ s : PaperSemantics,
        AgreesWithRepo s ∧ ∀ c : PaperCall, (s c).rows = shape :=
  ⟨rfl, fun shape =>
    ⟨fun c => ⟨c.molecules, shape⟩, agreesWithRepo_all _, fun _ => rfl⟩⟩

/-- C4: the declaration of `paper` writes no exception specification,
carries no documentation, and so defines no mechanism — error code,
exception specification, or documented sentinel — for signalling
failure to the caller. -/
theorem paper_decl_no_error_mechanism :
    paperFunDecl.exceptionSpec = none
    ∧ paperDeclComments = []
    ∧ declaredErrorMechanisms paperFunDecl paperDeclComments = [] := by
  refine ⟨rfl, rfl, ?_⟩
  decide

/-- C5: `paper` is declared with C linkage, so it is exported under the
unmangled symbol name `paper`, not under the name C++ mangling would
produce. -/
theorem paper_c_linkage_unmangled :
    paperFunDecl.hasCLinkage = true
    ∧ exportedSymbol paperFunDecl = "paper"
    ∧ exportedSymbol paperFunDecl ≠ itaniumMangle paperFunDecl := by
  refine ⟨rfl, rfl, ?_⟩
  decide

/-- C6: the header forward-declares `RDKit::ROMol` and nothing defines
it, so it stays an incomplete type through this interface, and the
header's only include dependency is `<list>`. -/
theorem romol_incomplete_and_includes :
    itemForwardDecls paperHeaderPP = [("RDKit", "ROMol")]
    ∧ itemClassDefs paperHeaderPP = []
    ∧ isCompleteType paperHeaderPP "RDKit" "ROMol" = false
    ∧ itemIncludes paperHeaderPP = ["list"] := by
  decide

/-- C7: the repository consists of the single file `src/paper/paper.h`,
whose only function declaration is `paper`; it defines no class with
members and no function body, so the declaration of `paper` is the
repository's sole externally visible surface. -/
theorem repo_sole_surface :
    repoFiles = [paperDotH]
    ∧ paperDotH.path = "src/paper/paper.h"
    ∧ paperDotH.ppItems = paperHeaderPP
    ∧ itemFunDecls paperHeaderPP = [paperFunDecl]
    ∧ itemClassDefs paperHeaderPP = []
    ∧ repoDefinedFunNames = [] := by
  decide

/-- C8: the `molecules` parameter is a non-const lvalue reference to
the caller's `std::list`, a type that permits the callee to mutate the
referenced list; accordingly there is a semantics consistent with the
repository under which a call changes the caller's list. -/
theorem molecules_param_mutable_ref :
    paperFunDecl.params.map CppParam.ptype =
      [ CppType.intType
      , CppType.lvalRef false
          (CppType.stdListOf (CppType.ptr (CppType.classRef "RDKit" "ROMol"))) ]
    ∧ permitsMutation (CppType.lvalRef false
        (CppType.stdListOf (CppType.ptr (CppType.classRef "RDKit" "ROMol")))) = true
    ∧ ∃ s : PaperSemantics, AgreesWithRepo s
        ∧ ∃ c : PaperCall, (s c).post ≠ c.molecules := by
  refine ⟨by decide, by decide, fun _ => ⟨[], []⟩, agreesWithRepo_all _, ⟨0, [0]⟩, ?_⟩
  decide

/-- C9: inclusion of the header is idempotent: for every n ≥ 1,
including `src/paper/paper.h` n times in a fresh translation unit
contributes exactly the declarations one inclusion contributes,
because the first inclusion defines `PAPER_H` and every later one is
skipped by the include guard. -/
theorem header_inclusion_idempotent (n : Nat) :
    (includeHeaderN (n + 1) []).2 = (includeHeaderN 1 []).2 := by
  have hfirst : includeHeader [] =
      ( ["PAPER_H"]
      , [ HeaderDecl.includeDirective "list"
        , HeaderDecl.classForwardDecl "RDKit" "ROMol"
        , HeaderDecl.funDeclItem paperFunDecl ] ) := by
    decide
  have hrest := includeHeaderN_guarded n ["PAPER_H"] (by decide)
  simp [includeHeaderN, hfirst, hrest]

set_option maxRecDepth 8192 in
/-- C10: the header source file is exactly 12 lines long (and its full
text is exactly the file's 180 bytes: 169 characters of line text plus
11 newlines). -/
theorem header_twelve_lines :
    paperHeaderLines.length = 12 ∧ paperHeaderText.length = 180 := by
  refine ⟨rfl, ?_⟩
  decide

end Roshambo
